import Mathlib

/-!
Shallow embedding of the Lutron Homeworks auto-discovery engine
(`src/pyhomeworks/discovery.py`) and of the address validation used by the
configuration flow (`src/config_flow.py`), together with theorems settling
the specification claims about them.

The Python objects are embedded as follows: the `_responses` dict becomes an
association list with Python-dict semantics (unique keys, overwrite in place,
`pop` removes the key), Python values stored in that dict become `PyVal`,
exceptions become `Except`, and the asynchronous delivery of controller
messages during the engine's sleep calls becomes an explicit schedule
`Nat → List Msg` indexed by the number of sleeps performed so far.  Calls the
engine makes on the controller and on the progress callback are recorded in an
event trace.  Parts of the repository that are referenced but absent from the
source (the controller class, `_generate_addresses`, `_update_progress`,
`DiscoveredDevice`) are modelled from the spec and marked as such.
-/

/-- Values stored in the correlator table and carried in inbound messages
(`values: list[Any]` in the source); a small closed universe suffices for the
payloads the discovery subsystem handles. -/
inductive PyVal where
  | pstr : String → PyVal
  | pint : Int → PyVal
  | pbool : Bool → PyVal
deriving DecidableEq

/-- Entry of the correlator table: the dict `{"type": msg_type, "state": state}`
built by `_handle_response`. -/
structure Entry where
  type : String
  state : PyVal
deriving DecidableEq

/-- The `_responses` dict of `HomeworksDiscovery`: address → latest entry. -/
abbrev RespTable := List (PyVal × Entry)

/-- Python dict read: the (unique) binding of the key, if any. -/
def dictGet : RespTable → PyVal → Option Entry
  | [], _ => none
  | (k', v') :: rest, k => if k' = k then some v' else dictGet rest k

/-- Python dict write `r[k] = v`: overwrite in place if the key is present,
append otherwise. -/
def dictInsert (r : RespTable) (k : PyVal) (v : Entry) : RespTable :=
  match r with
  | [] => [(k, v)]
  | (k', v') :: rest => if k' = k then (k, v) :: rest else (k', v') :: dictInsert rest k v

/-- Python `r.pop(k, None)`: remove the binding of the key, if any. -/
def dictPop : RespTable → PyVal → RespTable
  | [], _ => []
  | (k', v') :: rest, k => if k' = k then dictPop rest k else (k', v') :: dictPop rest k

/-- Keys of the table, used to state the one-entry-per-address invariant. -/
def dictKeys (r : RespTable) : List PyVal :=
  r.map (fun p => p.1)

/-- Python exceptions that the embedded code can raise. -/
inductive PyErr where
  | indexError
  | connectionLost
deriving DecidableEq

deriving instance DecidableEq for Except

/-- Python list indexing `l[i]`: raises `IndexError` when out of range. -/
def pyIndex (l : List PyVal) (i : Nat) : Except PyErr PyVal :=
  match l[i]? with
  | some v => Except.ok v
  | none => Except.error PyErr.indexError

/-- Message types recognized by `_handle_response` (discovery.py line 13). -/
def RECOGNIZED : List String := ["DL", "CCOS", "CCIS"]

/-- Embedding of `HomeworksDiscovery._handle_response` (discovery.py lines
11-19): for a recognized message type, read `values[0]` and `values[1]`
(unguarded Python indexing) and overwrite the table entry for that address;
otherwise leave the table untouched. -/
def _handle_response (msg_type : String) (values : List PyVal) (responses : RespTable) :
    Except PyErr RespTable :=
  if msg_type ∈ RECOGNIZED then
    match pyIndex values 0 with
    | Except.error e => Except.error e
    | Except.ok addr =>
      match pyIndex values 1 with
      | Except.error e => Except.error e
      | Except.ok state => Except.ok (dictInsert responses addr ⟨msg_type, state⟩)
  else
    Except.ok responses

/-- An inbound controller message as delivered to the registered callback:
`(msg_type, values)`. -/
structure Msg where
  msg_type : String
  values : List PyVal
deriving DecidableEq

/-- Effect of one inbound message on the correlator table.  When the callback
raises (malformed `values`), the fault occurs before the table write, so the
table is left unchanged. -/
def deliver (r : RespTable) (m : Msg) : RespTable :=
  match _handle_response m.msg_type m.values r with
  | Except.ok r' => r'
  | Except.error _ => r

/-- Deliver a batch of messages in order. -/
def deliverAll (r : RespTable) (ms : List Msg) : RespTable :=
  ms.foldl deliver r

/-- Table obtained after the schedule's batches for ticks `t, t+1, …, t+k-1`
have been delivered. -/
def deliverWindow (sched : Nat → List Msg) (t : Nat) : Nat → RespTable → RespTable
  | 0, r => r
  | k + 1, r => deliverWindow sched (t + 1) k (deliverAll r (sched t))

/-- The poll condition of the `_discover_*` methods:
`addr in self._responses and self._responses[addr]["type"] == expected`. -/
def hasType (r : RespTable) (a : PyVal) (expected : String) : Bool :=
  match dictGet r a with
  | some en => decide (en.type = expected)
  | none => false

/-- Result of one probe: whether the poll succeeded, the table afterwards, and
the tick reached. -/
structure ProbeResult where
  found : Bool
  responses : RespTable
  time : Nat
deriving DecidableEq

/-- The poll loop shared by the three `_discover_*` methods
(`for _ in range(5): await asyncio.sleep(0.1); if …: return True` followed by
`return False`): each iteration sleeps (during which the schedule's batch for
the current tick is delivered) and then checks the table. -/
def pollLoop (sched : Nat → List Msg) (a : PyVal) (expected : String) :
    Nat → Nat → RespTable → ProbeResult
  | 0, t, r => ⟨false, r, t⟩
  | n + 1, t, r =>
    let r' := deliverAll r (sched t)
    if hasType r' a expected then ⟨true, r', t + 1⟩
    else pollLoop sched a expected n (t + 1) r'

/-- Events of the engine's interaction trace: callback (un)registration,
probe requests (`request_dimmer_level` and friends, tagged by the expected
response type), and invocations of the progress callback. -/
inductive Ev where
  | register
  | unregister
  | request : String → String → Ev
  | progress : Nat → Nat → Ev
deriving DecidableEq

/-- Modelled from the spec: the controller class (`Homeworks` from
`pyhomeworks.pyhomeworks`) is not part of the source.  Per the spec the
connection delivers unsolicited inbound messages asynchronously (here: a batch
per sleep tick) and may suffer a connection-level fatal error during a probe
(here: a request issued at a tick where `connFail` holds raises). -/
structure Env where
  sched : Nat → List Msg
  connFail : Nat → Bool

/-- Embedding of `HomeworksDiscovery._discover_light` (discovery.py lines
55-65): pop any stale entry for the address, issue the dimmer-level request,
then poll five times for a response of type `DL`. -/
def _discover_light (env : Env) (addr : String) (t : Nat) (r : RespTable) :
    List Ev × Except PyErr ProbeResult :=
  let r0 := dictPop r (PyVal.pstr addr)
  if env.connFail t then
    ([Ev.request "DL" addr], Except.error PyErr.connectionLost)
  else
    ([Ev.request "DL" addr], Except.ok (pollLoop env.sched (PyVal.pstr addr) "DL" 5 t r0))

/-- Embedding of `HomeworksDiscovery._discover_cco` (discovery.py lines
67-77): pop any stale entry, issue the CCO-state request, poll for `CCOS`. -/
def _discover_cco (env : Env) (addr : String) (t : Nat) (r : RespTable) :
    List Ev × Except PyErr ProbeResult :=
  let r0 := dictPop r (PyVal.pstr addr)
  if env.connFail t then
    ([Ev.request "CCOS" addr], Except.error PyErr.connectionLost)
  else
    ([Ev.request "CCOS" addr], Except.ok (pollLoop env.sched (PyVal.pstr addr) "CCOS" 5 t r0))

/-- Embedding of `HomeworksDiscovery._discover_cci` (discovery.py lines
79-89): pop any stale entry, issue the CCI-state request, poll for `CCIS`. -/
def _discover_cci (env : Env) (addr : String) (t : Nat) (r : RespTable) :
    List Ev × Except PyErr ProbeResult :=
  let r0 := dictPop r (PyVal.pstr addr)
  if env.connFail t then
    ([Ev.request "CCIS" addr], Except.error PyErr.connectionLost)
  else
    ([Ev.request "CCIS" addr], Except.ok (pollLoop env.sched (PyVal.pstr addr) "CCIS" 5 t r0))

/-- Modelled from the spec: `DiscoveredDevice` is imported from the discovery
module by `config_flow.py` but is absent from the source.  The spec defines it
as `{address, deviceType, displayName, selected:boolean(default false)}`. -/
structure DiscoveredDevice where
  addr : String
  device_type : String
  name : String
  selected : Bool
deriving DecidableEq

/-- The `_discovered_devices` dict: address → discovered device. -/
abbrev Catalog := List (String × DiscoveredDevice)

/-- Modelled from the spec: `_update_progress` is called by `discover_devices`
but is absent from the source.  Per the spec it is invoked exactly once per
address after all probe kinds were attempted, advances the completed-probe
count by the probe kind count (3), and reports
`(probesCompletedSoFar, totalProbes)` to the progress callback. -/
def _update_progress (completed total : Nat) : Nat × List Ev :=
  (completed + 3, [Ev.progress (completed + 3) total])

/-- Numeric value of a two-digit component given by its two characters. -/
def twoDigitVal (c1 c2 : Char) : Option Nat :=
  if c1.isDigit && c2.isDigit then some ((c1.toNat - 48) * 10 + (c2.toNat - 48))
  else none

/-- Modelled from the spec: parser for the canonical address text format, a
bracketed, colon-separated sequence of 1 to 4 two-digit decimal components
(`[00]` … `[99:99:99:99]`), matched exactly.  The fuel argument bounds the
number of further components allowed. -/
def parseComps : Nat → List Char → Option (List Nat)
  | fuel, c1 :: c2 :: rest =>
    match twoDigitVal c1 c2 with
    | none => none
    | some v =>
      match fuel, rest with
      | _, [']'] => some [v]
      | fuel' + 1, ':' :: rest' => (parseComps fuel' rest').map (fun vs => v :: vs)
      | _, _ => none
  | _, _ => none

/-- Parse an address string into its component tuple; `none` when malformed. -/
def parseAddr (s : String) : Option (List Nat) :=
  match s.data with
  | '[' :: rest => parseComps 3 rest
  | _ => none

/-- Numeric value of a component tuple, most-significant component first. -/
def addrVal (comps : List Nat) : Nat :=
  comps.foldl (fun acc c => acc * 100 + c) 0

/-- Render one two-digit component. -/
def compStr (k : Nat) : String :=
  String.mk [Char.ofNat (48 + k / 10), Char.ofNat (48 + k % 10)]

/-- Render a bracketed address with `n` components from its numeric value. -/
def formatAddr (n v : Nat) : String :=
  String.mk ('[' :: (String.intercalate ":"
    ((List.range n).map (fun i => compStr ((v / 100 ^ (n - 1 - i)) % 100)))).data ++ [']'])

/-- Modelled from the spec: `_generate_addresses` is called by
`discover_devices` but is absent from the source.  Per the spec it is a pure
function producing the ordered sequence of addresses between the two bounds,
numeric over the component tuple, and produces the empty sequence when `start`
sorts after `end` (explicit policy).  Malformed bounds are rejected by the
caller's validation (`config_flow.py`) before the engine runs and are mapped
to the empty sequence here. -/
def _generate_addresses (start_addr end_addr : String) : List String :=
  match parseAddr start_addr, parseAddr end_addr with
  | some s, some e =>
    if addrVal e < addrVal s then []
    else (List.range (addrVal e + 1 - addrVal s)).map (fun i => formatAddr s.length (addrVal s + i))
  | _, _ => []

/-- Mutable attributes of `HomeworksDiscovery` set in `__init__` (discovery.py
lines 2-9) that the claims refer to. -/
structure HomeworksDiscovery where
  _responses : RespTable
  _discovered_devices : Catalog
  _stop_discovery : Bool
deriving DecidableEq

/-- Embedding of `HomeworksDiscovery.stop_discovery` (discovery.py lines
51-53): set the `_stop_discovery` flag. -/
def stop_discovery (self : HomeworksDiscovery) : HomeworksDiscovery :=
  { self with _stop_discovery := true }

/-- The per-address loop of `discover_devices` (discovery.py lines 39-44):
probe light, CCO and CCI in that order — discarding the boolean probe results,
as the source does — then report progress.  Nothing in the loop consults
`_stop_discovery` and nothing writes `_discovered_devices`.  An exception
raised by a probe propagates. -/
def discover_loop (env : Env) (total : Nat) :
    List String → Nat → Nat → RespTable → List Ev × Except PyErr (RespTable × Nat)
  | [], _, t, r => ([], Except.ok (r, t))
  | addr :: rest, completed, t, r =>
    match _discover_light env addr t r with
    | (ev1, Except.error e) => (ev1, Except.error e)
    | (ev1, Except.ok p1) =>
      match _discover_cco env addr p1.time p1.responses with
      | (ev2, Except.error e) => (ev1 ++ ev2, Except.error e)
      | (ev2, Except.ok p2) =>
        match _discover_cci env addr p2.time p2.responses with
        | (ev3, Except.error e) => (ev1 ++ ev2 ++ ev3, Except.error e)
        | (ev3, Except.ok p3) =>
          let (completed', evp) := _update_progress completed total
          let (evs, res) := discover_loop env total rest completed' p3.time p3.responses
          (ev1 ++ ev2 ++ ev3 ++ evp ++ evs, res)

/-- Embedding of `HomeworksDiscovery.discover_devices` (discovery.py lines
21-49).  The whole body is guarded by `if progress_callback is not None`; when
the callback is absent the method does nothing and falls through, returning
Python `None` (embedded as `Except.ok none`).  Otherwise it clears both dicts,
registers the response callback, generates the address list, runs the probe
loop, unregisters the callback and returns `_discovered_devices` — which no
statement of the method ever writes.  The callback is unregistered only on the
normal path; an exception from the loop propagates past the unregister call. -/
def discover_devices (env : Env) (self : HomeworksDiscovery)
    (progress_callback : Bool) (start_addr end_addr : String) :
    List Ev × Except PyErr (Option Catalog) :=
  if progress_callback then
    let self1 : HomeworksDiscovery :=
      { self with _discovered_devices := [], _responses := [] }
    let addresses := _generate_addresses start_addr end_addr
    let total := addresses.length * 3
    match discover_loop env total addresses 0 0 self1._responses with
    | (evs, Except.error e) => (Ev.register :: evs, Except.error e)
    | (evs, Except.ok _) =>
      (Ev.register :: evs ++ [Ev.unregister], Except.ok (some self1._discovered_devices))
  else
    ([], Except.ok none)

/-- Match `\d\d:` at the head of the input, returning the rest on success;
building block of the address regex. -/
def matchDDColon : List Char → Option (List Char)
  | c1 :: c2 :: c3 :: rest =>
    if c1.isDigit && c2.isDigit && decide (c3 = ':') then some rest else none
  | _ => none

/-- Match the fixed tail `\d\d:\d\d:\d\d\]` of the address regex at the head
of the input (anything may follow, as `re.match` only anchors the start). -/
def reTail (cs : List Char) : Bool :=
  match matchDDColon cs with
  | some cs1 =>
    match matchDDColon cs1 with
    | some cs2 =>
      match cs2 with
      | c5 :: c6 :: c7 :: _ => c5.isDigit && c6.isDigit && decide (c7 = ']')
      | _ => false
    | none => false
  | none => false

/-- Match `(?:\d\d:){0,k}\d\d:\d\d:\d\d\]` at the head of the input, with the
regex engine's backtracking alternation between consuming another `\d\d:`
group and proceeding to the fixed tail. -/
def reRepeat : Nat → List Char → Bool
  | 0, cs => reTail cs
  | k + 1, cs =>
    (match matchDDColon cs with
     | some cs' => reRepeat k cs'
     | none => false) || reTail cs

/-- Embedding of `validate_addr` (config_flow.py line 116):
`cv.matches_regex(r"\[(?:\d\d:){0,2}\d\d:\d\d:\d\d\]")`, which accepts a
string when `re.match` finds the pattern at its start (trailing characters are
not rejected). -/
def validate_addr (s : String) : Bool :=
  match s.data with
  | c :: cs => decide (c = '[') && reRepeat 2 cs
  | [] => false

/-- Stated from the spec's words for comparison with `validate_addr`: the
claimed canonical address format, a bracketed, colon-separated sequence of 1
to 4 two-digit decimal components matched exactly
(`[00:00:00:00]` … `[99:99:99:99]`). -/
def specAddrExact (s : String) : Bool :=
  (parseAddr s).isSome

/-- Stated from the spec's words: the input begins with a bracketed,
colon-separated sequence of exactly `n` two-digit decimal components;
characters after the closing bracket are unconstrained.  Used to characterize
what `validate_addr` actually accepts. -/
def compsThenBracket : Nat → List Char → Bool
  | 1, c1 :: c2 :: c3 :: _ => c1.isDigit && c2.isDigit && decide (c3 = ']')
  | n + 2, c1 :: c2 :: c3 :: rest =>
    c1.isDigit && c2.isDigit && decide (c3 = ':') && compsThenBracket (n + 1) rest
  | _, _ => false

/-- The string starts with a bracketed sequence of `n` two-digit components. -/
def addrStartsBracketed (n : Nat) (s : String) : Bool :=
  match s.data with
  | c :: cs => decide (c = '[') && compsThenBracket n cs
  | [] => false

/-- Error raised by the auto-discover options-flow step. -/
inductive FlowErr where
  | invalid_addr
deriving DecidableEq

/-- Embedding of the module-level `async_step_auto_discover`
(config_flow.py lines 532-545): empty input is passed through; otherwise both
bounds are validated with `validate_addr` and a malformed bound raises
`SchemaFlowError("invalid_addr")` before the input is returned (so before any
probing can begin).  The two user-input fields are `start_addr`, `end_addr`. -/
def async_step_auto_discover (user_input : Option (String × String)) :
    Except FlowErr (Option (String × String)) :=
  match user_input with
  | none => Except.ok none
  | some (s, e) =>
    if validate_addr s then
      if validate_addr e then Except.ok (some (s, e))
      else Except.error FlowErr.invalid_addr
    else Except.error FlowErr.invalid_addr


/-- A discovery object as freshly constructed (`__init__`): empty dicts,
stop flag unset. -/
def self0 : HomeworksDiscovery := ⟨[], [], false⟩

/-- Schedule delivering one well-formed `DL` response for address
`[00:00:00:01]` during the first sleep and nothing afterwards. -/
def schedDL1 : Nat → List Msg := fun t =>
  if t = 0 then [⟨"DL", [PyVal.pstr "[00:00:00:01]", PyVal.pint 100]⟩] else []

/-- Environment with the `schedDL1` schedule and a healthy connection. -/
def envDL1 : Env := ⟨schedDL1, fun _ => false⟩

/-- Environment with no inbound messages and a healthy connection. -/
def envQuiet : Env := ⟨fun _ => [], fun _ => false⟩

/-- Environment with no inbound messages where the connection fails from the
sixth tick on (so during the second probe of the first address). -/
def envFail5 : Env := ⟨fun _ => [], fun t => decide (5 ≤ t)⟩

/-- Progress-callback invocations contained in a trace. -/
def progressEvents (evs : List Ev) : List Ev :=
  evs.filter (fun ev => match ev with | Ev.progress _ _ => true | _ => false)

example : validate_addr "[00:00:00:00]" = true := by decide
example : validate_addr "[99:99:99:99]" = true := by decide
example : validate_addr "[00:00:00]" = true := by decide
example : validate_addr "[00:00:00:00:00]" = true := by decide
example : validate_addr "[00:00]" = false := by decide
example : validate_addr "[00:00:00]junk" = true := by decide
example : specAddrExact "[00]" = true := by decide
example : specAddrExact "[00:00]" = true := by decide
example : specAddrExact "[00:00:00:00:00]" = false := by decide
example : specAddrExact "[00:00:00]junk" = false := by decide
example : _generate_addresses "[00:00:00:00]" "[00:00:00:02]" =
    ["[00:00:00:00]", "[00:00:00:01]", "[00:00:00:02]"] := by decide
example : _generate_addresses "[00:00:00:02]" "[00:00:00:00]" = [] := by decide

example : (_discover_light envDL1 "[00:00:00:01]" 0 []).2 =
    Except.ok ⟨true, [(PyVal.pstr "[00:00:00:01]", ⟨"DL", PyVal.pint 100⟩)], 1⟩ := by decide

example : discover_devices envDL1 self0 true "[00:00:00:01]" "[00:00:00:01]" =
    ([Ev.register, Ev.request "DL" "[00:00:00:01]", Ev.request "CCOS" "[00:00:00:01]",
      Ev.request "CCIS" "[00:00:00:01]", Ev.progress 3 3, Ev.unregister],
     Except.ok (some [])) := by decide

example : Ev.request "DL" "[00:00:00:02]" ∈
    (discover_devices envQuiet (stop_discovery self0) true "[00:00:00:01]" "[00:00:00:02]").1 := by
  decide

example : discover_devices envFail5 self0 true "[00:00:00:01]" "[00:00:00:01]" =
    ([Ev.register, Ev.request "DL" "[00:00:00:01]", Ev.request "CCOS" "[00:00:00:01]"],
     Except.error PyErr.connectionLost) := by decide


lemma dictGet_dictPop_self (r : RespTable) (k : PyVal) : dictGet (dictPop r k) k = none := by
  induction r with
  | nil => rfl
  | cons p rest ih =>
    obtain ⟨pk, pv⟩ := p
    by_cases h : pk = k
    · simpa [dictPop, h] using ih
    · simpa [dictPop, dictGet, h] using ih

lemma dictGet_dictInsert_self (r : RespTable) (k : PyVal) (v : Entry) :
    dictGet (dictInsert r k v) k = some v := by
  induction r with
  | nil => simp [dictInsert, dictGet]
  | cons p rest ih =>
    obtain ⟨pk, pv⟩ := p
    by_cases h : pk = k
    · simp [dictInsert, dictGet, h]
    · simpa [dictInsert, dictGet, h] using ih

lemma dictGet_dictInsert_ne (r : RespTable) (k k' : PyVal) (v : Entry) (h : k' ≠ k) :
    dictGet (dictInsert r k v) k' = dictGet r k' := by
  induction r with
  | nil => simp [dictInsert, dictGet, Ne.symm h]
  | cons p rest ih =>
    obtain ⟨pk, pv⟩ := p
    by_cases hp : pk = k
    · subst hp
      simp [dictInsert, dictGet, Ne.symm h]
    · by_cases hp' : pk = k'
      · simp [dictInsert, dictGet, hp, hp', h]
      · simpa [dictInsert, dictGet, hp, hp'] using ih

lemma mem_dictKeys_dictInsert (r : RespTable) (k a : PyVal) (v : Entry)
    (h : a ∈ dictKeys (dictInsert r k v)) : a ∈ dictKeys r ∨ a = k := by
  induction r with
  | nil => simpa [dictInsert, dictKeys] using h
  | cons p rest ih =>
    obtain ⟨pk, pv⟩ := p
    by_cases hp : pk = k
    · subst hp
      have e : dictInsert ((pk, pv) :: rest) pk v = (pk, v) :: rest := by simp [dictInsert]
      rw [e] at h
      simp only [dictKeys, List.map_cons, List.mem_cons] at h ⊢
      tauto
    · simp only [dictInsert, if_neg hp, dictKeys, List.map_cons, List.mem_cons] at h ⊢
      rcases h with h | h
      · exact Or.inl (Or.inl h)
      · rcases ih h with h' | h'
        · exact Or.inl (Or.inr h')
        · exact Or.inr h'

lemma dictKeys_dictInsert_nodup (r : RespTable) (k : PyVal) (v : Entry)
    (h : (dictKeys r).Nodup) : (dictKeys (dictInsert r k v)).Nodup := by
  induction r with
  | nil => simp [dictInsert, dictKeys]
  | cons p rest ih =>
    obtain ⟨pk, pv⟩ := p
    simp only [dictKeys, List.map_cons, List.nodup_cons] at h
    by_cases hp : pk = k
    · subst hp
      have e : dictInsert ((pk, pv) :: rest) pk v = (pk, v) :: rest := by simp [dictInsert]
      rw [e]
      simp only [dictKeys, List.map_cons, List.nodup_cons]
      exact ⟨h.1, h.2⟩
    · simp only [dictInsert, if_neg hp, dictKeys, List.map_cons, List.nodup_cons]
      refine ⟨fun hmem => ?_, ih h.2⟩
      rcases mem_dictKeys_dictInsert rest k pk v hmem with h' | h'
      · exact h.1 h'
      · exact hp h'

lemma handle_response_recognized (mt : String) (vs : List PyVal) (r : RespTable)
    (hmt : mt ∈ RECOGNIZED) (a st : PyVal) (h0 : vs[0]? = some a) (h1 : vs[1]? = some st) :
    _handle_response mt vs r = Except.ok (dictInsert r a ⟨mt, st⟩) := by
  simp only [_handle_response, if_pos hmt, pyIndex, h0, h1]

lemma hasType_deliver (r : RespTable) (m : Msg) (a : PyVal) (exp : String)
    (h : hasType (deliver r m) a exp = true) :
    hasType r a exp = true ∨ (m.msg_type = exp ∧ m.values[0]? = some a) := by
  by_cases hmt : m.msg_type ∈ RECOGNIZED
  · cases h0 : m.values[0]? with
    | none =>
      left
      simpa [deliver, _handle_response, hmt, pyIndex, h0] using h
    | some addr =>
      cases h1 : m.values[1]? with
      | none =>
        left
        simpa [deliver, _handle_response, hmt, pyIndex, h0, h1] using h
      | some st =>
        rw [deliver, handle_response_recognized m.msg_type m.values r hmt addr st h0 h1] at h
        by_cases ha : addr = a
        · right
          rw [hasType, ha, dictGet_dictInsert_self] at h
          simp only [decide_eq_true_eq] at h
          exact ⟨h, by rw [ha]⟩
        · left
          rw [hasType, dictGet_dictInsert_ne r addr a _ (Ne.symm ha)] at h
          rw [hasType]
          exact h
  · left
    simpa [deliver, _handle_response, hmt] using h

lemma hasType_deliverAll (ms : List Msg) (r : RespTable) (a : PyVal) (exp : String)
    (h : hasType (deliverAll r ms) a exp = true) :
    hasType r a exp = true ∨ ∃ m ∈ ms, m.msg_type = exp ∧ m.values[0]? = some a := by
  induction ms generalizing r with
  | nil => exact Or.inl (by simpa [deliverAll] using h)
  | cons m rest ih =>
    have h' : hasType (deliverAll (deliver r m) rest) a exp = true := by
      simpa [deliverAll, List.foldl_cons] using h
    rcases ih (deliver r m) h' with h'' | h''
    · rcases hasType_deliver r m a exp h'' with h3 | h3
      · exact Or.inl h3
      · exact Or.inr ⟨m, List.mem_cons_self m rest, h3⟩
    · obtain ⟨m', hm', hp⟩ := h''
      exact Or.inr ⟨m', List.mem_cons_of_mem m hm', hp⟩

lemma hasType_deliverWindow (sched : Nat → List Msg) (a : PyVal) (exp : String) :
    ∀ (k t : Nat) (r : RespTable), hasType (deliverWindow sched t k r) a exp = true →
      hasType r a exp = true ∨
        ∃ j, j < k ∧ ∃ m ∈ sched (t + j), m.msg_type = exp ∧ m.values[0]? = some a := by
  intro k
  induction k with
  | zero =>
    intro t r h
    exact Or.inl (by simpa [deliverWindow] using h)
  | succ k ih =>
    intro t r h
    rw [deliverWindow] at h
    rcases ih (t + 1) _ h with h' | h'
    · rcases hasType_deliverAll (sched t) r a exp h' with h'' | h''
      · exact Or.inl h''
      · obtain ⟨m, hm, hp⟩ := h''
        exact Or.inr ⟨0, Nat.succ_pos k, by simpa using ⟨m, hm, hp⟩⟩
    · obtain ⟨j, hj, m, hm, hp⟩ := h'
      refine Or.inr ⟨j + 1, Nat.succ_lt_succ hj, m, ?_, hp⟩
      have e : t + (j + 1) = t + 1 + j := by omega
      rwa [e]

lemma pollLoop_found (sched : Nat → List Msg) (a : PyVal) (exp : String) :
    ∀ (n t : Nat) (r : RespTable), (pollLoop sched a exp n t r).found = true →
      ∃ k, k < n ∧ hasType (deliverWindow sched t (k + 1) r) a exp = true := by
  intro n
  induction n with
  | zero =>
    intro t r h
    simp [pollLoop] at h
  | succ n ih =>
    intro t r h
    by_cases hc : hasType (deliverAll r (sched t)) a exp = true
    · exact ⟨0, Nat.succ_pos n, by simpa [deliverWindow] using hc⟩
    · rw [pollLoop] at h
      simp only [if_neg hc] at h
      obtain ⟨k, hk, hh⟩ := ih (t + 1) _ h
      exact ⟨k + 1, Nat.succ_lt_succ hk, by simpa [deliverWindow] using hh⟩

lemma pollLoop_pop_found_msg (sched : Nat → List Msg) (a : PyVal) (exp : String)
    (n t : Nat) (r : RespTable)
    (h : (pollLoop sched a exp n t (dictPop r a)).found = true) :
    ∃ j, j < n ∧ ∃ m ∈ sched (t + j), m.msg_type = exp ∧ m.values[0]? = some a := by
  obtain ⟨k, hk, hh⟩ := pollLoop_found sched a exp n t (dictPop r a) h
  rcases hasType_deliverWindow sched a exp (k + 1) t (dictPop r a) hh with h' | h'
  · rw [hasType, dictGet_dictPop_self] at h'
    cases h'
  · obtain ⟨j, hj, hm⟩ := h'
    exact ⟨j, lt_of_le_of_lt (Nat.lt_succ_iff.mp hj) hk, hm⟩

/-- C1: the claim states that a catalog entry for an address/kind exists if
and only if a matching response arrived before the probe's deadline.  The code
violates the forward direction: on a run over the single address
`[00:00:00:01]` in which a matching `DL` response is delivered during the
first poll window — so the light probe itself reports success — the returned
catalog is nevertheless empty, because `discover_devices` discards the probe
results and never writes `_discovered_devices`. -/
theorem C1_matching_response_creates_no_catalog_entry :
    (∃ p : ProbeResult, (_discover_light envDL1 "[00:00:00:01]" 0 []).2 = Except.ok p ∧
      p.found = true) ∧
    discover_devices envDL1 self0 true "[00:00:00:01]" "[00:00:00:01]" =
      ([Ev.register, Ev.request "DL" "[00:00:00:01]", Ev.request "CCOS" "[00:00:00:01]",
        Ev.request "CCIS" "[00:00:00:01]", Ev.progress 3 3, Ev.unregister],
       Except.ok (some [])) := by
  constructor
  · exact ⟨⟨true, [(PyVal.pstr "[00:00:00:01]", ⟨"DL", PyVal.pint 100⟩)], 1⟩, by decide, rfl⟩
  · decide

/-- C2: the claim states that discovery runs regardless of whether a progress
sink is supplied.  In the code the whole body of `discover_devices` is inside
`if progress_callback is not None`, so without a callback nothing happens at
all — no registration, no probes — and Python `None` is returned instead of
the catalog promised by the return annotation (and expected by the caller in
`config_flow.py`, which passes no callback). -/
theorem C2_absent_progress_sink_skips_discovery (env : Env) (self : HomeworksDiscovery)
    (s e : String) : discover_devices env self false s e = ([], Except.ok none) := by
  simp [discover_devices]

/-- C3: the claim states that setting the cancel token (`stop_discovery`) is
observed by the probe loop between addresses.  In the code `stop_discovery`
sets `_stop_discovery`, but no statement of `discover_devices` ever reads that
flag: with the flag set before a two-address run, the run is identical to the
un-stopped run, still probes the second address and still reports full
progress. -/
theorem C3_stop_discovery_not_observed :
    (stop_discovery self0)._stop_discovery = true ∧
    discover_devices envQuiet (stop_discovery self0) true "[00:00:00:01]" "[00:00:00:02]" =
      discover_devices envQuiet self0 true "[00:00:00:01]" "[00:00:00:02]" ∧
    Ev.request "DL" "[00:00:00:02]" ∈
      (discover_devices envQuiet (stop_discovery self0) true "[00:00:00:01]" "[00:00:00:02]").1 ∧
    Ev.progress 6 6 ∈
      (discover_devices envQuiet (stop_discovery self0) true "[00:00:00:01]" "[00:00:00:02]").1 := by
  refine ⟨rfl, ?_, ?_, ?_⟩ <;> decide

/-- C5 counterexample: a connection-level fatal error during the second probe
of the first address makes `discover_devices` propagate the exception; on this
exit path no catalog accompanies the error and the callback is never
unregistered, contradicting the claim that the callback is unregistered on
every exit path and that a partial catalog plus `ConnectionLost` is
returned. -/
theorem C5_counterexample_error_skips_unregister :
    (discover_devices envFail5 self0 true "[00:00:00:01]" "[00:00:00:01]").2 =
      Except.error PyErr.connectionLost ∧
    Ev.unregister ∉ (discover_devices envFail5 self0 true "[00:00:00:01]" "[00:00:00:01]").1 := by
  decide

/-- C7: the correlator handler overwrites the (unique) entry for the message's
address with the new type/state pair when the message type is recognized
(`DL`, `CCOS`, `CCIS`), leaves every other address's entry unchanged,
preserves key uniqueness, and leaves the table completely unchanged for any
other message type. -/
theorem C7_correlator_overwrite_or_ignore (r : RespTable) (mt : String) (vs : List PyVal)
    (hnd : (dictKeys r).Nodup) :
    (mt ∉ RECOGNIZED → _handle_response mt vs r = Except.ok r) ∧
    (mt ∈ RECOGNIZED → ∀ a st, vs[0]? = some a → vs[1]? = some st →
      _handle_response mt vs r = Except.ok (dictInsert r a ⟨mt, st⟩) ∧
      dictGet (dictInsert r a ⟨mt, st⟩) a = some ⟨mt, st⟩ ∧
      (∀ b, b ≠ a → dictGet (dictInsert r a ⟨mt, st⟩) b = dictGet r b) ∧
      (dictKeys (dictInsert r a ⟨mt, st⟩)).Nodup) := by
  constructor
  · intro hmt
    simp [_handle_response, hmt]
  · intro hmt a st h0 h1
    exact ⟨handle_response_recognized mt vs r hmt a st h0 h1,
      dictGet_dictInsert_self r a _,
      fun b hb => dictGet_dictInsert_ne r a b _ hb,
      dictKeys_dictInsert_nodup r a _ hnd⟩

/-- Witness for C7 at concrete inputs: an unrecognized type (`GSW`) leaves a
one-entry table untouched, and a recognized type (`CCOS`) overwrites the
existing entry for the same address. -/
theorem C7_correlator_overwrite_or_ignore_witness :
    _handle_response "GSW" [] [(PyVal.pstr "x", ⟨"DL", PyVal.pint 0⟩)] =
      Except.ok [(PyVal.pstr "x", ⟨"DL", PyVal.pint 0⟩)] ∧
    _handle_response "CCOS" [PyVal.pstr "x", PyVal.pint 1]
        [(PyVal.pstr "x", ⟨"DL", PyVal.pint 0⟩)] =
      Except.ok [(PyVal.pstr "x", ⟨"CCOS", PyVal.pint 1⟩)] :=
  ⟨(C7_correlator_overwrite_or_ignore [(PyVal.pstr "x", ⟨"DL", PyVal.pint 0⟩)] "GSW" []
      (by decide)).1 (by decide),
   ((C7_correlator_overwrite_or_ignore [(PyVal.pstr "x", ⟨"DL", PyVal.pint 0⟩)] "CCOS"
      [PyVal.pstr "x", PyVal.pint 1] (by decide)).2 (by decide)
      (PyVal.pstr "x") (PyVal.pint 1) rfl rfl).1⟩

/-- C10: for a recognized message type the handler indexes `values[0]` and
`values[1]` without a length guard: with at least two elements it never
faults, with fewer it raises an out-of-range index error instead of ignoring
the malformed message. -/
theorem C10_unguarded_values_indexing (mt : String) (vs : List PyVal) (r : RespTable)
    (hmt : mt ∈ RECOGNIZED) :
    (2 ≤ vs.length → ∃ r', _handle_response mt vs r = Except.ok r') ∧
    (vs.length < 2 → _handle_response mt vs r = Except.error PyErr.indexError) := by
  constructor
  · intro hlen
    rcases vs with _ | ⟨v0, _ | ⟨v1, rest⟩⟩
    · simp at hlen
    · simp at hlen
    · exact ⟨_, handle_response_recognized mt _ r hmt v0 v1 (by simp) (by simp)⟩
  · intro hlen
    rcases vs with _ | ⟨v0, _ | ⟨v1, rest⟩⟩
    · simp [_handle_response, hmt, pyIndex]
    · simp [_handle_response, hmt, pyIndex]
    · simp only [List.length_cons] at hlen
      omega

/-- Witness for C10 at concrete inputs: a well-formed two-element `DL` message
succeeds, a one-element `DL` message raises the index error. -/
theorem C10_unguarded_values_indexing_witness :
    (∃ r', _handle_response "DL" [PyVal.pstr "x", PyVal.pint 3] [] = Except.ok r') ∧
    _handle_response "DL" [PyVal.pstr "x"] [] = Except.error PyErr.indexError :=
  ⟨(C10_unguarded_values_indexing "DL" [PyVal.pstr "x", PyVal.pint 3] [] (by decide)).1
      (by decide),
   (C10_unguarded_values_indexing "DL" [PyVal.pstr "x"] [] (by decide)).2 (by decide)⟩

/-- C6: a probe succeeds only when a response of exactly its expected message
type (`DL` for the light probe, `CCOS` for the CCO probe, `CCIS` for the CCI
probe) is delivered for its address during its own polling window.  Since each
probe first pops any existing entry for the address, a response stored before
the probe started — in particular one left over from an earlier probe kind —
can never satisfy the poll, and a delivered response of a different kind never
satisfies it either. -/
theorem C6_probe_succeeds_only_on_matching_kind (env : Env) (addr : String) (t : Nat)
    (r : RespTable) :
    (∀ tr p, _discover_light env addr t r = (tr, Except.ok p) → p.found = true →
      ∃ j, j < 5 ∧ ∃ m ∈ env.sched (t + j), m.msg_type = "DL" ∧
        m.values[0]? = some (PyVal.pstr addr)) ∧
    (∀ tr p, _discover_cco env addr t r = (tr, Except.ok p) → p.found = true →
      ∃ j, j < 5 ∧ ∃ m ∈ env.sched (t + j), m.msg_type = "CCOS" ∧
        m.values[0]? = some (PyVal.pstr addr)) ∧
    (∀ tr p, _discover_cci env addr t r = (tr, Except.ok p) → p.found = true →
      ∃ j, j < 5 ∧ ∃ m ∈ env.sched (t + j), m.msg_type = "CCIS" ∧
        m.values[0]? = some (PyVal.pstr addr)) := by
  refine ⟨?_, ?_, ?_⟩
  · intro tr p heq hfound
    by_cases hcf : env.connFail t
    · simp [_discover_light, hcf] at heq
    · have hp : pollLoop env.sched (PyVal.pstr addr) "DL" 5 t
          (dictPop r (PyVal.pstr addr)) = p := by
        simpa [_discover_light, hcf] using congrArg Prod.snd heq
      exact pollLoop_pop_found_msg env.sched (PyVal.pstr addr) "DL" 5 t r (hp ▸ hfound)
  · intro tr p heq hfound
    by_cases hcf : env.connFail t
    · simp [_discover_cco, hcf] at heq
    · have hp : pollLoop env.sched (PyVal.pstr addr) "CCOS" 5 t
          (dictPop r (PyVal.pstr addr)) = p := by
        simpa [_discover_cco, hcf] using congrArg Prod.snd heq
      exact pollLoop_pop_found_msg env.sched (PyVal.pstr addr) "CCOS" 5 t r (hp ▸ hfound)
  · intro tr p heq hfound
    by_cases hcf : env.connFail t
    · simp [_discover_cci, hcf] at heq
    · have hp : pollLoop env.sched (PyVal.pstr addr) "CCIS" 5 t
          (dictPop r (PyVal.pstr addr)) = p := by
        simpa [_discover_cci, hcf] using congrArg Prod.snd heq
      exact pollLoop_pop_found_msg env.sched (PyVal.pstr addr) "CCIS" 5 t r (hp ▸ hfound)

/-- Witness for C6: on the concrete schedule delivering one `DL` response for
`[00:00:00:01]` in the first poll window, the successful light probe yields a
matching delivered message. -/
theorem C6_probe_succeeds_only_on_matching_kind_witness :
    ∃ j, j < 5 ∧ ∃ m ∈ envDL1.sched (0 + j), m.msg_type = "DL" ∧
      m.values[0]? = some (PyVal.pstr "[00:00:00:01]") :=
  (C6_probe_succeeds_only_on_matching_kind envDL1 "[00:00:00:01]" 0 []).1
    [Ev.request "DL" "[00:00:00:01]"]
    ⟨true, [(PyVal.pstr "[00:00:00:01]", ⟨"DL", PyVal.pint 100⟩)], 1⟩
    (by decide) rfl

lemma discover_light_trace (env : Env) (a : String) (t : Nat) (r : RespTable) :
    (_discover_light env a t r).1 = [Ev.request "DL" a] := by
  by_cases h : env.connFail t <;> simp [_discover_light, h]

lemma discover_cco_trace (env : Env) (a : String) (t : Nat) (r : RespTable) :
    (_discover_cco env a t r).1 = [Ev.request "CCOS" a] := by
  by_cases h : env.connFail t <;> simp [_discover_cco, h]

lemma discover_cci_trace (env : Env) (a : String) (t : Nat) (r : RespTable) :
    (_discover_cci env a t r).1 = [Ev.request "CCIS" a] := by
  by_cases h : env.connFail t <;> simp [_discover_cci, h]

lemma discover_light_ok (env : Env) (hfail : ∀ u, env.connFail u = false) (a : String) :
    ∀ (t : Nat) (r : RespTable), _discover_light env a t r =
      ([Ev.request "DL" a],
        Except.ok (pollLoop env.sched (PyVal.pstr a) "DL" 5 t (dictPop r (PyVal.pstr a)))) := by
  intro t r
  simp [_discover_light, hfail t]

lemma discover_cco_ok (env : Env) (hfail : ∀ u, env.connFail u = false) (a : String) :
    ∀ (t : Nat) (r : RespTable), _discover_cco env a t r =
      ([Ev.request "CCOS" a],
        Except.ok (pollLoop env.sched (PyVal.pstr a) "CCOS" 5 t (dictPop r (PyVal.pstr a)))) := by
  intro t r
  simp [_discover_cco, hfail t]

lemma discover_cci_ok (env : Env) (hfail : ∀ u, env.connFail u = false) (a : String) :
    ∀ (t : Nat) (r : RespTable), _discover_cci env a t r =
      ([Ev.request "CCIS" a],
        Except.ok (pollLoop env.sched (PyVal.pstr a) "CCIS" 5 t (dictPop r (PyVal.pstr a)))) := by
  intro t r
  simp [_discover_cci, hfail t]

lemma discover_loop_cons (env : Env) (hfail : ∀ u, env.connFail u = false) (total : Nat)
    (a : String) (rest : List String) (completed t : Nat) (r : RespTable) :
    discover_loop env total (a :: rest) completed t r =
      (let p1 := pollLoop env.sched (PyVal.pstr a) "DL" 5 t (dictPop r (PyVal.pstr a))
       let p2 := pollLoop env.sched (PyVal.pstr a) "CCOS" 5 p1.time
         (dictPop p1.responses (PyVal.pstr a))
       let p3 := pollLoop env.sched (PyVal.pstr a) "CCIS" 5 p2.time
         (dictPop p2.responses (PyVal.pstr a))
       let rec2 := discover_loop env total rest (completed + 3) p3.time p3.responses
       ([Ev.request "DL" a] ++ [Ev.request "CCOS" a] ++ [Ev.request "CCIS" a] ++
          [Ev.progress (completed + 3) total] ++ rec2.1, rec2.2)) := by
  simp only [discover_loop, discover_light_ok env hfail a, discover_cco_ok env hfail a,
    discover_cci_ok env hfail a, _update_progress]

lemma discover_loop_ok (env : Env) (hfail : ∀ u, env.connFail u = false) (total : Nat) :
    ∀ (addrs : List String) (completed t : Nat) (r : RespTable),
      ∃ r' t', (discover_loop env total addrs completed t r).2 = Except.ok (r', t') := by
  intro addrs
  induction addrs with
  | nil =>
    intro c t r
    exact ⟨r, t, rfl⟩
  | cons a rest ih =>
    intro c t r
    rw [discover_loop_cons env hfail total a rest c t r]
    exact ih (c + 3) _ _

lemma range_progress_shift (n completed total : Nat) :
    (List.range (n + 1)).map (fun i => Ev.progress (completed + (i + 1) * 3) total) =
      Ev.progress (completed + 3) total ::
        (List.range n).map (fun i => Ev.progress (completed + 3 + (i + 1) * 3) total) := by
  rw [List.range_succ_eq_map, List.map_cons, List.map_map]
  refine congrArg₂ List.cons ?_ ?_
  · congr 1
  · refine List.map_congr_left (fun i _ => ?_)
    simp only [Function.comp_apply]
    congr 1
    omega

lemma discover_loop_progress (env : Env) (hfail : ∀ u, env.connFail u = false) (total : Nat) :
    ∀ (addrs : List String) (completed t : Nat) (r : RespTable),
      progressEvents (discover_loop env total addrs completed t r).1 =
        (List.range addrs.length).map (fun i => Ev.progress (completed + (i + 1) * 3) total) := by
  intro addrs
  induction addrs with
  | nil =>
    intro c t r
    simp [discover_loop, progressEvents]
  | cons a rest ih =>
    intro c t r
    rw [discover_loop_cons env hfail total a rest c t r]
    simp only [List.length_cons, range_progress_shift]
    simp [progressEvents, List.filter_append] at ih ⊢
    exact ih (c + 3) _ _

lemma discover_loop_no_reg (env : Env) (total : Nat) :
    ∀ (addrs : List String) (completed t : Nat) (r : RespTable),
      Ev.register ∉ (discover_loop env total addrs completed t r).1 ∧
      Ev.unregister ∉ (discover_loop env total addrs completed t r).1 := by
  intro addrs
  induction addrs with
  | nil =>
    intro c t r
    simp [discover_loop]
  | cons a rest ih =>
    intro c t r
    rcases h1 : _discover_light env a t r with ⟨ev1, res1⟩
    have hev1 : ev1 = [Ev.request "DL" a] := by
      have e := discover_light_trace env a t r
      rw [h1] at e
      exact e
    cases res1 with
    | error er => simp [discover_loop, h1, hev1]
    | ok p1 =>
      rcases h2 : _discover_cco env a p1.time p1.responses with ⟨ev2, res2⟩
      have hev2 : ev2 = [Ev.request "CCOS" a] := by
        have e := discover_cco_trace env a p1.time p1.responses
        rw [h2] at e
        exact e
      cases res2 with
      | error er => simp [discover_loop, h1, h2, hev1, hev2]
      | ok p2 =>
        rcases h3 : _discover_cci env a p2.time p2.responses with ⟨ev3, res3⟩
        have hev3 : ev3 = [Ev.request "CCIS" a] := by
          have e := discover_cci_trace env a p2.time p2.responses
          rw [h3] at e
          exact e
        cases res3 with
        | error er => simp [discover_loop, h1, h2, h3, hev1, hev2, hev3]
        | ok p3 =>
          have hih := ih (c + 3) p3.time p3.responses
          simp [discover_loop, h1, h2, h3, hev1, hev2, hev3, _update_progress,
            hih.1, hih.2]

lemma discover_devices_eq (env : Env) (self : HomeworksDiscovery) (s e : String) :
    discover_devices env self true s e =
      (match discover_loop env ((_generate_addresses s e).length * 3)
          (_generate_addresses s e) 0 0 [] with
       | (evs, Except.error er) => (Ev.register :: evs, Except.error er)
       | (evs, Except.ok _) =>
         (Ev.register :: evs ++ [Ev.unregister], Except.ok (some []))) := rfl

lemma discover_devices_ok (env : Env) (hfail : ∀ u, env.connFail u = false)
    (self : HomeworksDiscovery) (s e : String) :
    discover_devices env self true s e =
      (Ev.register ::
        (discover_loop env ((_generate_addresses s e).length * 3)
          (_generate_addresses s e) 0 0 []).1 ++ [Ev.unregister],
       Except.ok (some [])) := by
  obtain ⟨r', t', hok⟩ := discover_loop_ok env hfail ((_generate_addresses s e).length * 3)
    (_generate_addresses s e) 0 0 []
  rw [discover_devices_eq env self s e]
  rcases hl : discover_loop env ((_generate_addresses s e).length * 3)
      (_generate_addresses s e) 0 0 [] with ⟨evs, res⟩
  rw [hl] at hok
  simp only at hok
  subst hok
  rfl

/-- C4: on a run with a progress sink and no connection failure, the progress
callback fires exactly once per address, after that address's three probes,
with the completed count increasing by 3 each time up to
`addressCount × 3` exactly at the final address.  The per-address reporting
step `_update_progress` is modelled from the spec, as it is absent from the
source. -/
theorem C4_progress_once_per_address (env : Env) (self : HomeworksDiscovery)
    (s e : String) (hfail : ∀ u, env.connFail u = false) :
    progressEvents (discover_devices env self true s e).1 =
      (List.range (_generate_addresses s e).length).map
        (fun i => Ev.progress ((i + 1) * 3) ((_generate_addresses s e).length * 3)) := by
  rw [discover_devices_ok env hfail self s e]
  have hres := discover_loop_progress env hfail ((_generate_addresses s e).length * 3)
    (_generate_addresses s e) 0 0 []
  simp [progressEvents, List.filter_append] at hres ⊢
  simpa using hres

/-- Witness for C4: a quiet two-address run reports progress exactly twice,
with counts (3, 6) and (6, 6). -/
theorem C4_progress_once_per_address_witness :
    progressEvents (discover_devices envQuiet self0 true "[00:00:00:01]" "[00:00:00:02]").1 =
      [Ev.progress 3 6, Ev.progress 6 6] := by
  have h := C4_progress_once_per_address envQuiet self0 "[00:00:00:01]" "[00:00:00:02]"
    (fun u => rfl)
  rw [h]
  decide

/-- C5 amended: the engine unregisters its callback only on normal completion
of the probe loop — once, as the final event.  When a connection-level error
occurs during a probe, the exception propagates out of `discover_devices`
with no catalog, and no unregistration happens on that exit path. -/
theorem C5_amended_unregister_only_on_normal_exit (env : Env) (self : HomeworksDiscovery)
    (s e : String) :
    ((∀ u, env.connFail u = false) →
      ∃ evs, discover_devices env self true s e =
          (Ev.register :: evs ++ [Ev.unregister], Except.ok (some [])) ∧
        Ev.unregister ∉ evs) ∧
    (∀ err, (discover_devices env self true s e).2 = Except.error err →
      Ev.unregister ∉ (discover_devices env self true s e).1) := by
  constructor
  · intro hfail
    exact ⟨_, discover_devices_ok env hfail self s e,
      (discover_loop_no_reg env ((_generate_addresses s e).length * 3)
        (_generate_addresses s e) 0 0 []).2⟩
  · intro err herr
    rw [discover_devices_eq env self s e] at herr ⊢
    have hnr := (discover_loop_no_reg env ((_generate_addresses s e).length * 3)
      (_generate_addresses s e) 0 0 []).2
    rcases hl : discover_loop env ((_generate_addresses s e).length * 3)
        (_generate_addresses s e) 0 0 [] with ⟨evs, res⟩
    rw [hl] at herr hnr
    cases res with
    | ok pr => simp at herr
    | error e2 => simpa using hnr

/-- Witness for C5 amended: applied to the quiet healthy run (normal exit with
a final unregistration) and to the failing run (error exit without any
unregistration). -/
theorem C5_amended_unregister_only_on_normal_exit_witness :
    (∃ evs, discover_devices envQuiet self0 true "[00:00:00:01]" "[00:00:00:01]" =
        (Ev.register :: evs ++ [Ev.unregister], Except.ok (some [])) ∧
      Ev.unregister ∉ evs) ∧
    Ev.unregister ∉ (discover_devices envFail5 self0 true "[00:00:00:01]" "[00:00:00:01]").1 :=
  ⟨(C5_amended_unregister_only_on_normal_exit envQuiet self0 "[00:00:00:01]" "[00:00:00:01]").1
      (fun u => rfl),
   (C5_amended_unregister_only_on_normal_exit envFail5 self0 "[00:00:00:01]" "[00:00:00:01]").2
      PyErr.connectionLost (by decide)⟩

/-- C9: when both bounds are well formed and the start bound sorts after the
end bound numerically, the enumeration (modelled from the spec) is empty and
the run performs zero probes and zero progress callbacks, returning an empty
catalog with no error. -/
theorem C9_start_after_end_empty_run (env : Env) (self : HomeworksDiscovery)
    (s e : String) (cs ce : List Nat) (hs : parseAddr s = some cs) (he : parseAddr e = some ce)
    (hlt : addrVal ce < addrVal cs) :
    _generate_addresses s e = [] ∧
    discover_devices env self true s e = ([Ev.register, Ev.unregister], Except.ok (some [])) := by
  have hgen : _generate_addresses s e = [] := by
    simp [_generate_addresses, hs, he, hlt]
  refine ⟨hgen, ?_⟩
  rw [discover_devices_eq env self s e, hgen]
  simp [discover_loop]

/-- Witness for C9 at the concrete reversed bounds
`[00:00:00:02]` → `[00:00:00:00]`. -/
theorem C9_start_after_end_empty_run_witness :
    _generate_addresses "[00:00:00:02]" "[00:00:00:00]" = [] ∧
    discover_devices envQuiet self0 true "[00:00:00:02]" "[00:00:00:00]" =
      ([Ev.register, Ev.unregister], Except.ok (some [])) :=
  C9_start_after_end_empty_run envQuiet self0 "[00:00:00:02]" "[00:00:00:00]"
    [0, 0, 0, 2] [0, 0, 0, 0] (by decide) (by decide) (by decide)

lemma ctb_succ_succ (n : Nat) (cs : List Char) :
    compsThenBracket (n + 2) cs =
      (match matchDDColon cs with
       | some rest => compsThenBracket (n + 1) rest
       | none => false) := by
  rcases cs with _ | ⟨c1, _ | ⟨c2, _ | ⟨c3, rest⟩⟩⟩
  · rfl
  · rfl
  · rfl
  · cases h : (c1.isDigit && c2.isDigit && decide (c3 = ':')) with
    | false => simp [compsThenBracket, matchDDColon, h]
    | true => simp [compsThenBracket, matchDDColon, h]

lemma ctb_one (cs : List Char) :
    compsThenBracket 1 cs =
      (match cs with
       | c1 :: c2 :: c3 :: _ => c1.isDigit && c2.isDigit && decide (c3 = ']')
       | _ => false) := by
  rcases cs with _ | ⟨c1, _ | ⟨c2, _ | ⟨c3, rest⟩⟩⟩ <;> rfl

lemma reTail_eq (cs : List Char) : reTail cs = compsThenBracket 3 cs := by
  cases h : matchDDColon cs with
  | none =>
    have h3 : compsThenBracket 3 cs = false := by rw [ctb_succ_succ 1 cs, h]
    simp only [reTail, h, h3]
  | some cs1 =>
    have h3 : compsThenBracket 3 cs = compsThenBracket 2 cs1 := by rw [ctb_succ_succ 1 cs, h]
    cases h' : matchDDColon cs1 with
    | none =>
      have h2 : compsThenBracket 2 cs1 = false := by rw [ctb_succ_succ 0 cs1, h']
      simp only [reTail, h, h', h3, h2]
    | some cs2 =>
      have h2 : compsThenBracket 2 cs1 = compsThenBracket 1 cs2 := by
        rw [ctb_succ_succ 0 cs1, h']
      simp only [reTail, h, h', h3, h2, ctb_one]

lemma reRepeat_two_eq (cs : List Char) :
    reRepeat 2 cs =
      (compsThenBracket 3 cs || compsThenBracket 4 cs || compsThenBracket 5 cs) := by
  have e2 : reRepeat 2 cs =
      ((match matchDDColon cs with
        | some cs1 => reRepeat 1 cs1
        | none => false) || reTail cs) := rfl
  cases h : matchDDColon cs with
  | none =>
    have h4 : compsThenBracket 4 cs = false := by rw [ctb_succ_succ 2 cs, h]
    have h5 : compsThenBracket 5 cs = false := by rw [ctb_succ_succ 3 cs, h]
    simp only [e2, h, reTail_eq, h4, h5]
    simp
  | some cs1 =>
    have h4 : compsThenBracket 4 cs = compsThenBracket 3 cs1 := by rw [ctb_succ_succ 2 cs, h]
    have h5 : compsThenBracket 5 cs = compsThenBracket 4 cs1 := by rw [ctb_succ_succ 3 cs, h]
    have e1 : reRepeat 1 cs1 =
        ((match matchDDColon cs1 with
          | some cs2 => reRepeat 0 cs2
          | none => false) || reTail cs1) := rfl
    cases h' : matchDDColon cs1 with
    | none =>
      have h4' : compsThenBracket 4 cs1 = false := by rw [ctb_succ_succ 2 cs1, h']
      simp only [e2, h, e1, h', reTail_eq, h4, h5, h4']
      simp [Bool.or_comm]
    | some cs2 =>
      have h4' : compsThenBracket 4 cs1 = compsThenBracket 3 cs2 := by
        rw [ctb_succ_succ 2 cs1, h']
      have e0 : reRepeat 0 cs2 = reTail cs2 := rfl
      simp only [e2, h, e1, h', e0, reTail_eq, h4, h5, h4']
      simp [Bool.or_comm, Bool.or_left_comm, Bool.or_assoc]

/-- C8 counterexample: the claim says the validation accepts exactly the
bracketed sequences of 1 to 4 two-digit components, matched exactly.  The
regexp in the code disagrees in both directions: `[00:00]` (2 components) is
in the claimed format but rejected, `[00:00:00:00:00]` (5 components) and
`[00:00:00]x` (trailing characters, since `re.match` only anchors the start)
are outside the claimed format but accepted. -/
theorem C8_counterexample_address_format :
    specAddrExact "[00:00]" = true ∧ validate_addr "[00:00]" = false ∧
    validate_addr "[00:00:00:00:00]" = true ∧ specAddrExact "[00:00:00:00:00]" = false ∧
    validate_addr "[00:00:00]x" = true ∧ specAddrExact "[00:00:00]x" = false := by
  decide

/-- C8 amended: `validate_addr` accepts a string exactly when it starts with a
bracketed, colon-separated sequence of 3 to 5 two-digit decimal components
(characters after the closing bracket are not rejected); and a bound failing
this check makes the auto-discover options step fail with `invalid_addr`
before the input is accepted, so before any probing. -/
theorem C8_amended_address_validation (s e : String) :
    (validate_addr s =
      (addrStartsBracketed 3 s || addrStartsBracketed 4 s || addrStartsBracketed 5 s)) ∧
    (validate_addr s = false →
      async_step_auto_discover (some (s, e)) = Except.error FlowErr.invalid_addr) := by
  constructor
  · cases hs : s.data with
    | nil => simp [validate_addr, addrStartsBracketed, hs]
    | cons c cs =>
      cases hc : decide (c = '[') with
      | false => simp [validate_addr, addrStartsBracketed, hs, hc]
      | true => simp [validate_addr, addrStartsBracketed, hs, hc, reRepeat_two_eq]
  · intro hv
    simp [async_step_auto_discover, hv]

/-- Witness for C8 amended: the characterization evaluated at a string with
trailing characters, and the `invalid_addr` failure for a malformed start
bound. -/
theorem C8_amended_address_validation_witness :
    (validate_addr "[00:00:00:00]xyz" =
      (addrStartsBracketed 3 "[00:00:00:00]xyz" || addrStartsBracketed 4 "[00:00:00:00]xyz" ||
        addrStartsBracketed 5 "[00:00:00:00]xyz")) ∧
    async_step_auto_discover (some ("[00:00]", "[00:00:00:00]")) =
      Except.error FlowErr.invalid_addr :=
  ⟨(C8_amended_address_validation "[00:00:00:00]xyz" "x").1,
   (C8_amended_address_validation "[00:00]" "[00:00:00:00]").2 (by decide)⟩
